import Mathlib

/-!
# Verification of the mod_cache caching engine specification

Shallow embedding of the Apache httpd `mod_cache` caching engine
(`modules/cache/mod_cache.h` and the components it declares) together
with proofs of the specification's claims about it.

Times are `apr_time_t` values (signed 64-bit microsecond counts) and are
embedded as `Int`; none of the claims exercises the 2^63 wrap-around, so
plain integer arithmetic is the faithful model of the in-range behaviour.
-/

namespace ModCache

/-! ## Constants from mod_cache.h (lines 80-91) -/

/-- APR microseconds per second (`APR_USEC_PER_SEC`). -/
def APR_USEC_PER_SEC : Int := 1000000

/-- `MSEC_ONE_DAY`: one day, in microseconds (`86400*APR_USEC_PER_SEC`). -/
def MSEC_ONE_DAY : Int := 86400 * APR_USEC_PER_SEC

/-- `MSEC_ONE_HR`: one hour, in microseconds (`3600*APR_USEC_PER_SEC`). -/
def MSEC_ONE_HR : Int := 3600 * APR_USEC_PER_SEC

/-- `MSEC_ONE_MIN`: one minute, in microseconds. -/
def MSEC_ONE_MIN : Int := 60 * APR_USEC_PER_SEC

/-- `MSEC_ONE_SEC`: one second, in microseconds. -/
def MSEC_ONE_SEC : Int := APR_USEC_PER_SEC

/-- `DEFAULT_CACHE_MAXEXPIRE` (mod_cache.h line 84). -/
def DEFAULT_CACHE_MAXEXPIRE : Int := MSEC_ONE_DAY

/-- `DEFAULT_CACHE_MINEXPIRE` (mod_cache.h line 85). -/
def DEFAULT_CACHE_MINEXPIRE : Int := 0

/-- `DEFAULT_CACHE_EXPIRE` (mod_cache.h line 86). -/
def DEFAULT_CACHE_EXPIRE : Int := MSEC_ONE_HR

/-- `DEFAULT_CACHE_LMFACTOR` (mod_cache.h line 87): the literal `0.1`,
embedded exactly as the rational 1/10. -/
def DEFAULT_CACHE_LMFACTOR : ℚ := 1 / 10

/-- `DEFAULT_CACHE_MAXAGE` (mod_cache.h line 88): thundering-herd lock
maximum age, in seconds. -/
def DEFAULT_CACHE_MAXAGE : Int := 5

/-! ## Data model: cache_info (mod_cache.h lines 184-202) -/

/-- `struct cache_info`: timestamps and status captured at population
time.  Fields are `apr_time_t` (microseconds) except `status`. -/
structure cache_info where
  /-- the original time corresponding to the Date header of the request served -/
  date : Int
  /-- a time when the cached entity is due to expire -/
  expire : Int
  /-- `r->request_time` from the same request -/
  request_time : Int
  /-- `apr_time_now()` at the time the entity was actually cached -/
  response_time : Int
  /-- HTTP status code of the cached entity -/
  status : Int
  deriving Repr, DecidableEq

/-! ## Freshness Engine -/

/-- Modelled from the spec: the body of `ap_cache_current_age`
(declared at mod_cache.h lines 275-276, implemented in the missing
`cache_util.c`), which the spec defines as the chain
`apparent_age = max(0, response_time - date)`;
`corrected_age = max(apparent_age, age_header_value)`;
`response_delay = response_time - request_time`;
`initial_age = corrected_age + response_delay`;
`current_age = initial_age + (now - response_time)`. -/
def ap_cache_current_age (info : cache_info) (age_value : Int) (now : Int) : Int :=
  let apparent_age := max 0 (info.response_time - info.date)
  let corrected_age := max apparent_age age_value
  let response_delay := info.response_time - info.request_time
  let initial_age := corrected_age + response_delay
  initial_age + (now - info.response_time)

/-- The spec's first freshness test: the age accumulated so far is below
the freshness lifetime fixed at storage time. -/
def freshByAge (info : cache_info) (age_value : Int) (now : Int) : Prop :=
  ap_cache_current_age info age_value now < info.expire - info.date

instance (info : cache_info) (a now : Int) : Decidable (freshByAge info a now) := by
  unfold freshByAge; infer_instance

/-- The spec's second freshness test: the expiry instant has not passed. -/
def freshByClock (info : cache_info) (now : Int) : Prop :=
  now < info.expire

instance (info : cache_info) (now : Int) : Decidable (freshByClock info now) := by
  unfold freshByClock; infer_instance

/-! ## Header Classifier -/

/-- A header multimap entry: (name, value).  Header-name comparison is
case-insensitive throughout. -/
abbrev Header := String × String

/-- Case-insensitive comparison key of a header name. -/
def lowerStr (s : String) : String := String.mk (s.data.map Char.toLower)

/-- The hop-by-hop header names (lower-cased), always excluded from
storage per the spec's Header Classifier rules. -/
def hop_by_hop_headers : List String :=
  ["connection", "keep-alive", "proxy-authenticate", "te", "trailer",
   "transfer-encoding", "upgrade"]

/-- The per-scope configuration consumed by the Header Classifier:
the `ignore_headers` array of `cache_server_conf`
(mod_cache.h lines 156-158). -/
structure header_conf where
  ignore_headers : List String

/-- Modelled from the spec: the body of `ap_cache_cacheable_headers`
(declared at mod_cache.h lines 299-301, implemented in the missing
`cache_util.c`): keep those elements of a headers table that are
allowed to be stored in a cache, i.e. drop the hop-by-hop headers and
any header whose name case-insensitively matches a configured
ignore-headers entry. -/
def ap_cache_cacheable_headers (conf : header_conf) (t : List Header) : List Header :=
  t.filter (fun h =>
    !(hop_by_hop_headers.contains (lowerStr h.1)) &&
    !((conf.ignore_headers.map lowerStr).contains (lowerStr h.1)))

/-- Does the header set name a Content-Type? (case-insensitive). -/
def hasContentType (t : List Header) : Bool :=
  t.any (fun h => lowerStr h.1 == "content-type")

/-- Modelled from the spec: the body of `ap_cache_cacheable_headers_out`
(declared at mod_cache.h lines 308-312, implemented in the missing
`cache_util.c`): produce the storable subset of the output headers,
ensuring there is a content type; when the response names no
Content-Type it is not cacheable and the classifier signals rejection
(`none`) rather than returning a partial set. -/
def ap_cache_cacheable_headers_out (conf : header_conf) (t : List Header) :
    Option (List Header) :=
  if hasContentType t then some (ap_cache_cacheable_headers conf t) else none

/-- A committed cache object as the provider stores it: the key, the
`cache_info`, and the stored response-header subset. -/
structure StoredObject where
  key : String
  info : cache_info
  resp_hdrs : List Header
  deriving Repr, DecidableEq

/-- Modelled from the spec: the store-time path of every store
operation (`store_headers` then `commit_entity`, mod_cache.h lines
226 and 236, implemented by the missing providers/`mod_cache.c`): the
header subset persisted with a committed object is the Header
Classifier's output for the response headers. -/
def store_and_commit (conf : header_conf) (key : String) (info : cache_info)
    (resp : List Header) : StoredObject :=
  ⟨key, info, ap_cache_cacheable_headers conf resp⟩

/-! ## Cacheability classification (storability flags) -/

/-- The response cache-control directives relevant to storability. -/
structure CacheControl where
  no_store : Bool
  private_tok : Bool
  max_age : Option Int

/-- The three override flags of `cache_server_conf`
(mod_cache.h lines 144-152). -/
structure StoreFlags where
  store_expired : Bool
  store_private : Bool
  store_nostore : Bool

/-- Modelled from the spec: the cacheability classification of the
missing `mod_cache.c` CACHE_SAVE path, per §4.3: `store_expired`,
`store_private` and `store_nostore` independently override
storability — each allows persisting a response otherwise rejected
for, respectively, an immediate-expiry directive (`max-age=0`),
`Cache-Control: private`, and `Cache-Control: no-store`. -/
def classify_response (flags : StoreFlags) (cc : CacheControl) : Bool :=
  let expired := match cc.max_age with
    | some a => decide (a ≤ 0)
    | none => false
  (!cc.no_store || flags.store_nostore) &&
  (!cc.private_tok || flags.store_private) &&
  (!expired || flags.store_expired)

/-! ## Key Normalizer -/

/-- Split a character list at every occurrence of the separator. -/
def splitOnChar (c : Char) : List Char → List (List Char)
  | [] => [[]]
  | x :: xs =>
    match splitOnChar c xs with
    | [] => if x = c then [[], []] else [[x]]
    | y :: ys => if x = c then [] :: y :: ys else (x :: y) :: ys

/-- Split a query string into its `&`-separated tokens. -/
def splitQuery (q : String) : List String :=
  (splitOnChar '&' q.data).map String.mk

/-- Re-join query tokens with `&`. -/
def joinQuery (toks : List String) : String :=
  String.intercalate "&" toks

/-- The name part of a `name=value` query-string token. -/
def tokenName (tok : String) : String :=
  String.mk ((splitOnChar '=' tok.data).headD tok.data)

/-- Modelled from the spec: the session-identifier removal loop of the
missing default `ap_cache_generate_key` implementation
(`cache_storage.c`; the optional hook is declared at mod_cache.h lines
317-320): each query-string token whose name matches a configured
ignore-session-id pattern is removed individually, preserving the
other query parameters in order. -/
def removeSessionTokens (patterns : List String) (toks : List String) : List String :=
  toks.filter (fun t => !(patterns.contains (tokenName t)))

/-- Session-id stripping at the query-string level: split on `&`,
remove matching tokens, re-join. -/
def strip_session_ids (patterns : List String) (q : String) : String :=
  joinQuery (removeSessionTokens patterns (splitQuery q))

/-- Modelled from the spec: cache-key construction from path and query
string of the missing default `ap_cache_generate_key` implementation,
after session-id stripping: the remaining query is appended to the
path. -/
def cache_generate_key (patterns : List String) (path q : String) : String :=
  let q2 := strip_session_ids patterns q
  if q2.isEmpty then path else path ++ "?" ++ q2

/-! ## Concurrency Guard (thundering-herd control) -/

/-- Outcome of a request's population attempt. -/
inductive Outcome where
  | populated
  | declined
  deriving Repr, DecidableEq

/-- State of the guard for one CacheKey: who currently holds the
advisory lock, and which requests are currently populating the entry. -/
structure GuardState where
  lock : Option Nat
  populating : List Nat
  deriving Repr, DecidableEq

/-- Guard events for one key: a request tries the non-blocking acquire;
the holder commits (releasing the lock on success) or abandons
(error or client disconnect, also releasing). -/
inductive GuardEvent where
  | tryAcquire (r : Nat)
  | commit (r : Nat)
  | abandon (r : Nat)

/-- Modelled from the spec: the Concurrency Guard protocol of §4.5
(the missing `cache_util.c` lock helpers behind `CACHE_LOCKNAME_KEY` /
`cache_server_conf.lock`, mod_cache.h lines 171-177).  Try-acquire is
atomic and non-blocking: if the lock is free the request takes it and
starts populating; otherwise the request is declined and touches
nothing.  Commit and abandonment release the lock unconditionally. -/
def guard_step (s : GuardState) : GuardEvent → GuardState
  | .tryAcquire r =>
    match s.lock with
    | none => { lock := some r, populating := r :: s.populating }
    | some _ => s
  | .commit r =>
    if s.lock = some r then { lock := none, populating := s.populating.erase r } else s
  | .abandon r =>
    if s.lock = some r then { lock := none, populating := s.populating.erase r } else s

/-- The guard's initial state: lock free, nobody populating. -/
def guard_init : GuardState := ⟨none, []⟩

/-- Run the guard over an arbitrary interleaving of events. -/
def guard_run (es : List GuardEvent) : GuardState :=
  es.foldl guard_step guard_init

/-- The guard invariant: either the lock is free and nobody populates,
or exactly the lock holder populates. -/
def GuardInv (s : GuardState) : Prop :=
  (s.lock = none ∧ s.populating = []) ∨
  (∃ r, s.lock = some r ∧ s.populating = [r])

/-- One lock window over a burst of concurrent MISS requests for the
same key: each request performs its atomic try-acquire in interleaving
order, no release happens inside the window, and each request's
outcome is recorded immediately (nobody ever waits). -/
def window_outcomes (reqs : List Nat) (s : GuardState) : List (Nat × Outcome) :=
  match reqs with
  | [] => []
  | r :: rs =>
    (r, if s.lock = none then Outcome.populated else Outcome.declined)
      :: window_outcomes rs (guard_step s (.tryAcquire r))

/-- Number of requests that got to populate in a window. -/
def countPopulated (outs : List (Nat × Outcome)) : Nat :=
  outs.countP (fun p => p.2 == Outcome.populated)

/-! ## Orchestrator frame property -/

/-- The client-visible response: status, headers, body bytes. -/
structure Response where
  status : Int
  headers : List Header
  body : List Nat
  deriving Repr, DecidableEq

/-- The caching failure modes of §7. -/
inductive CacheFailure where
  | backendError
  | classificationReject
  | guardNotAcquired
  | keyNormalizationError
  deriving Repr, DecidableEq

/-- What happened to the cache as a side effect of a request. -/
inductive CacheEffect where
  | stored (obj : StoredObject)
  | notStored
  deriving Repr, DecidableEq

/-- Modelled from the spec: the CACHE_SAVE path of the missing
`mod_cache.c` orchestrator (§4.6, §7).  `origin` is the response the
uncached pipeline produced.  On the success path the entity is stored
(with the classifier-filtered header subset) and the origin response
is forwarded; on a backend error the request falls back to
pass-through with the error unreported to the client; on a
classification reject the partial buffer is discarded and the request
is a plain pass-through (DECLINED); on a guard-denied request the
response is served directly from the origin without populating; on a
key-normalization failure the request is excluded from caching. -/
def cache_save (conf : header_conf) (key : String) (info : cache_info)
    (origin : Response) : Option CacheFailure → Response × CacheEffect
  | none =>
    (origin, CacheEffect.stored (store_and_commit conf key info origin.headers))
  | some CacheFailure.backendError => (origin, CacheEffect.notStored)
  | some CacheFailure.classificationReject => (origin, CacheEffect.notStored)
  | some CacheFailure.guardNotAcquired => (origin, CacheEffect.notStored)
  | some CacheFailure.keyNormalizationError => (origin, CacheEffect.notStored)

end ModCache

/-! ## Theorems -/

namespace ModCache

/-- Helper: the age chain flattened into one expression. -/
theorem current_age_eq (info : cache_info) (age_value now : Int) :
    ap_cache_current_age info age_value now =
      max (max 0 (info.response_time - info.date)) age_value
        + (info.response_time - info.request_time)
        + (now - info.response_time) := by
  unfold ap_cache_current_age
  ring

/-- **C10.** With no explicit configuration overrides, the effective
default limits declared in mod_cache.h are: maximum expiry one day
(86400 seconds), default expiry one hour (3600 seconds), minimum expiry
zero, last-modified heuristic factor 0.1, and thundering-herd lock
maximum age 5 seconds; i.e. `DEFAULT_CACHE_MAXEXPIRE = MSEC_ONE_DAY`,
`DEFAULT_CACHE_EXPIRE = MSEC_ONE_HR`, `DEFAULT_CACHE_MINEXPIRE = 0`,
`DEFAULT_CACHE_LMFACTOR = 0.1`, `DEFAULT_CACHE_MAXAGE = 5`. -/
theorem default_limits_are_header_constants :
    DEFAULT_CACHE_MAXEXPIRE = MSEC_ONE_DAY ∧
    MSEC_ONE_DAY = 86400 * 1000000 ∧
    DEFAULT_CACHE_EXPIRE = MSEC_ONE_HR ∧
    MSEC_ONE_HR = 3600 * 1000000 ∧
    DEFAULT_CACHE_MINEXPIRE = 0 ∧
    DEFAULT_CACHE_LMFACTOR = (1 : ℚ) / 10 ∧
    DEFAULT_CACHE_MAXAGE = 5 := by
  refine ⟨rfl, by decide, rfl, by decide, rfl, rfl, rfl⟩

/-- **C1.** For every `cache_info` with `response_time >= request_time`,
every age header value `age_value >= 0` (0 when absent), and every time
`now >= response_time`, `ap_cache_current_age info age_value now`
returns exactly
`max (max 0 (response_time - date)) age_value
   + (response_time - request_time) + (now - response_time)`,
the spec's apparent/corrected/initial/current age chain. -/
theorem ap_cache_current_age_spec (info : cache_info) (age_value now : Int)
    (hrt : info.request_time ≤ info.response_time)
    (ha : 0 ≤ age_value)
    (hnow : info.response_time ≤ now) :
    ap_cache_current_age info age_value now =
      max (max 0 (info.response_time - info.date)) age_value
        + (info.response_time - info.request_time)
        + (now - info.response_time) := by
  unfold ap_cache_current_age
  ring

/-- Witness for C1: the chain law evaluated at a concrete input. -/
theorem ap_cache_current_age_spec_witness :
    (10 : Int) ≤ 30 ∧ (0 : Int) ≤ 7 ∧ (30 : Int) ≤ 100 ∧
    ap_cache_current_age ⟨20, 500, 10, 30, 200⟩ 7 100 =
      max (max 0 ((30 : Int) - 20)) 7 + ((30 : Int) - 10) + ((100 : Int) - 30) :=
  ⟨by decide, by decide, by decide,
    ap_cache_current_age_spec ⟨20, 500, 10, 30, 200⟩ 7 100
      (by decide) (by decide) (by decide)⟩

/-- **C3 counterexample.** The two freshness tests the spec gives are
*not* equivalent for every `cache_info`, time `now` and stored Age
value: with `date = request_time = response_time = 0`, `expire = 50`,
a stored Age value of `100` and `now = 10`, the age-based test fails
(`current_age = 110 ≥ 50 = expire - date`) while the clock-based test
holds (`10 < 50`). -/
theorem freshness_tests_not_equivalent :
    ¬ (freshByAge ⟨0, 50, 0, 0, 200⟩ 100 10 ↔ freshByClock ⟨0, 50, 0, 0, 200⟩ 10) := by
  decide

/-- **C3 (amended).** Under the data-model invariant
`response_time ≥ request_time`, the age-based freshness test implies the
clock-based one: if `current_age(info, age_value, now) < expire - date`
then `now < expire`.  The reverse implication does not hold in general
(see the counterexample): the age-based test is the stronger of the two. -/
theorem freshByAge_implies_freshByClock (info : cache_info) (age_value now : Int)
    (hrt : info.request_time ≤ info.response_time)
    (h : freshByAge info age_value now) :
    freshByClock info now := by
  unfold freshByAge at h
  rw [current_age_eq] at h
  unfold freshByClock
  omega

/-- Witness for the amended C3 at a concrete input. -/
theorem freshByAge_implies_freshByClock_witness :
    (0 : Int) ≤ 0 ∧ freshByAge ⟨0, 50, 0, 0, 200⟩ 0 10 ∧ freshByClock ⟨0, 50, 0, 0, 200⟩ 10 :=
  ⟨by decide, by decide,
    freshByAge_implies_freshByClock ⟨0, 50, 0, 0, 200⟩ 0 10 (by decide) (by decide)⟩

/-- **C4.** `ap_cache_current_age` is monotone in the clock: for a fixed
`cache_info` and fixed age header value, `t1 < t2` implies
`current_age(t1) ≤ current_age(t2)`; consequently an object stale at
`t1` (clock test: `expire ≤ t1`; age test: `current_age ≥ expire - date`)
is still stale at every `t2 > t1`. -/
theorem ap_cache_current_age_monotone (info : cache_info) (age_value t1 t2 : Int)
    (h12 : t1 < t2) :
    ap_cache_current_age info age_value t1 ≤ ap_cache_current_age info age_value t2 ∧
    (¬ freshByClock info t1 → ¬ freshByClock info t2) ∧
    (¬ freshByAge info age_value t1 → ¬ freshByAge info age_value t2) := by
  unfold freshByAge freshByClock
  rw [current_age_eq, current_age_eq]
  refine ⟨by omega, by omega, by omega⟩

/-- Witness for C4 at a concrete input. -/
theorem ap_cache_current_age_monotone_witness :
    (10 : Int) < 20 ∧
    ap_cache_current_age ⟨0, 50, 0, 0, 200⟩ 0 10 ≤ ap_cache_current_age ⟨0, 50, 0, 0, 200⟩ 0 20 :=
  ⟨by decide, (ap_cache_current_age_monotone ⟨0, 50, 0, 0, 200⟩ 0 10 20 (by decide)).1⟩

/-- **C6.** A response carrying `Cache-Control: max-age=0, no-store` is
classified not-storable for every combination of the `store_expired`
and `store_private` flags when `store_nostore` is unset, and it is
stored only when `store_nostore` is set. -/
theorem no_store_never_stored :
    (∀ se sp : Bool,
      classify_response ⟨se, sp, false⟩ ⟨true, false, some 0⟩ = false) ∧
    (∀ se sp sn : Bool,
      classify_response ⟨se, sp, sn⟩ ⟨true, false, some 0⟩ = true → sn = true) := by
  decide

/-- Witness for C6: the only-when-store_nostore implication applied at
the all-flags-set configuration. -/
theorem no_store_never_stored_witness : (true : Bool) = true :=
  no_store_never_stored.2 true false true (by decide)

/-- **C7.** Key normalization removes exactly the query-string tokens
whose name matches a configured ignore-session-id pattern and
preserves all other query parameters in order (the surviving tokens
are a sublist of the originals, characterized by non-matching names);
in particular, with pattern `sid`, `/p?a=1&sid=XYZ&b=2` yields the
same cache key as `/p?a=1&b=2`, namely `/p?a=1&b=2`. -/
theorem ignore_session_id_key :
    cache_generate_key ["sid"] "/p" "a=1&sid=XYZ&b=2" =
      cache_generate_key ["sid"] "/p" "a=1&b=2" ∧
    cache_generate_key ["sid"] "/p" "a=1&sid=XYZ&b=2" = "/p?a=1&b=2" ∧
    (∀ (patterns toks : List String) (t : String),
      t ∈ removeSessionTokens patterns toks ↔ (t ∈ toks ∧ tokenName t ∉ patterns)) ∧
    (∀ patterns toks : List String,
      List.Sublist (removeSessionTokens patterns toks) toks) := by
  refine ⟨by decide, by decide, ?_, ?_⟩
  · intro patterns toks t
    simp [removeSessionTokens, List.mem_filter]
  · intro patterns toks
    exact List.filter_sublist _

/-- **C8.** The output header classifier signals rejection (returns
`none`, never a partial subset) exactly when the response header set
names no Content-Type: the result is present iff Content-Type is. -/
theorem content_type_required (conf : header_conf) (t : List Header) :
    (ap_cache_cacheable_headers_out conf t).isSome = hasContentType t := by
  unfold ap_cache_cacheable_headers_out
  by_cases h : hasContentType t <;> simp [h]

/-- **C9.** Every header in a committed object's stored subset is
neither one of the hop-by-hop headers (Connection, Keep-Alive,
Proxy-Authenticate, TE, Trailer, Transfer-Encoding, Upgrade) nor a
case-insensitive match of a configured ignore-headers entry; the
exclusion is established by the Header Classifier at store time. -/
theorem stored_headers_exclude_filtered (conf : header_conf) (key : String)
    (info : cache_info) (resp : List Header) (h : Header)
    (hmem : h ∈ (store_and_commit conf key info resp).resp_hdrs) :
    lowerStr h.1 ∉ hop_by_hop_headers ∧
    lowerStr h.1 ∉ conf.ignore_headers.map lowerStr := by
  unfold store_and_commit ap_cache_cacheable_headers at hmem
  simp [List.mem_filter] at hmem
  refine ⟨hmem.2.1, ?_⟩
  simp [List.mem_map]
  exact hmem.2.2

/-- Helper: every guard step preserves the guard invariant. -/
theorem guard_step_inv (s : GuardState) (e : GuardEvent)
    (h : GuardInv s) : GuardInv (guard_step s e) := by
  cases e with
  | tryAcquire r =>
    rcases h with ⟨hl, hp⟩ | ⟨q, hl, hp⟩
    · right
      exact ⟨r, by simp [guard_step, hl, hp]⟩
    · right
      exact ⟨q, by simp [guard_step, hl, hp]⟩
  | commit r =>
    rcases h with ⟨hl, hp⟩ | ⟨q, hl, hp⟩
    · left
      simp [guard_step, hl, hp]
    · by_cases hq : q = r
      · left
        subst hq
        simp [guard_step, hl, hp, List.erase]
      · right
        refine ⟨q, ?_⟩
        simp [guard_step, hl, hp, hq]
  | abandon r =>
    rcases h with ⟨hl, hp⟩ | ⟨q, hl, hp⟩
    · left
      simp [guard_step, hl, hp]
    · by_cases hq : q = r
      · left
        subst hq
        simp [guard_step, hl, hp, List.erase]
      · right
        refine ⟨q, ?_⟩
        simp [guard_step, hl, hp, hq]

/-- Helper: the invariant holds along any run. -/
theorem guard_foldl_inv (es : List GuardEvent) (s : GuardState)
    (h : GuardInv s) : GuardInv (es.foldl guard_step s) := by
  induction es generalizing s with
  | nil => exact h
  | cons e es ih => exact ih _ (guard_step_inv s e h)

/-- Helper: the invariant bounds the populating set to one element. -/
theorem guard_inv_length (s : GuardState) (h : GuardInv s) :
    s.populating.length ≤ 1 := by
  rcases h with ⟨_, hp⟩ | ⟨r, _, hp⟩ <;> simp [hp]

/-- Helper: a window records one outcome per request. -/
theorem window_outcomes_length (reqs : List Nat) (s : GuardState) :
    (window_outcomes reqs s).length = reqs.length := by
  induction reqs generalizing s with
  | nil => rfl
  | cons r rs ih => simp [window_outcomes, ih]

/-- Helper: while the lock is held, nobody in the window populates. -/
theorem countPopulated_locked (reqs : List Nat) (s : GuardState) (q : Nat)
    (h : s.lock = some q) : countPopulated (window_outcomes reqs s) = 0 := by
  induction reqs generalizing s q with
  | nil => rfl
  | cons r rs ih =>
    have hstep : (guard_step s (GuardEvent.tryAcquire r)).lock = some q := by
      simp [guard_step, h]
    simp [window_outcomes, countPopulated, h, List.countP_cons] at *
    exact ih _ q hstep

/-- **C2.** At most one in-progress population exists per CacheKey at
any instant: along every interleaving of guard events the populating
set has at most one member; and within one lock window over N
concurrent MISS requests for the same key, every request immediately
receives an outcome (none blocks) and exactly one outcome is
`populated` — the rest pass through declined. -/
theorem at_most_one_populator :
    (∀ es : List GuardEvent, (guard_run es).populating.length ≤ 1) ∧
    (∀ reqs : List Nat, reqs ≠ [] →
      (window_outcomes reqs guard_init).length = reqs.length ∧
      countPopulated (window_outcomes reqs guard_init) = 1) := by
  constructor
  · intro es
    exact guard_inv_length _ (guard_foldl_inv es guard_init (Or.inl ⟨rfl, rfl⟩))
  · intro reqs hne
    refine ⟨window_outcomes_length reqs guard_init, ?_⟩
    cases reqs with
    | nil => exact absurd rfl hne
    | cons r rs =>
      have hlock : (guard_step guard_init (GuardEvent.tryAcquire r)).lock = some r := by
        simp [guard_step, guard_init]
      simp [window_outcomes, countPopulated, guard_init, List.countP_cons]
      have h0 : countPopulated (window_outcomes rs (guard_step guard_init (GuardEvent.tryAcquire r))) = 0 :=
        countPopulated_locked rs _ r hlock
      simpa [countPopulated] using h0

/-- Witness for C2: three concurrent MISS requests, one populator. -/
theorem at_most_one_populator_witness :
    ([1, 2, 3] : List Nat) ≠ [] ∧
    (window_outcomes [1, 2, 3] guard_init).length = 3 ∧
    countPopulated (window_outcomes [1, 2, 3] guard_init) = 1 :=
  ⟨by decide, (at_most_one_populator.2 [1, 2, 3] (by decide)).1,
    (at_most_one_populator.2 [1, 2, 3] (by decide)).2⟩

/-- **C5.** For every origin response and every caching failure mode
(backend error, classification reject, guard lock not acquired,
key-normalization failure), the client-visible response — status,
headers and body — equals the origin response the uncached pipeline
produced, and equals what the success path serves; the failure only
degrades the cache effect to not-stored. -/
theorem caching_failures_preserve_response (conf : header_conf) (key : String)
    (info : cache_info) (origin : Response) (fm : CacheFailure) :
    (cache_save conf key info origin (some fm)).1 = origin ∧
    (cache_save conf key info origin (some fm)).1 =
      (cache_save conf key info origin none).1 ∧
    (cache_save conf key info origin (some fm)).2 = CacheEffect.notStored := by
  cases fm <;> exact ⟨rfl, rfl, rfl⟩

/-- Witness for C9: a Content-Type header survives storage under a
configuration ignoring X-Debug, and is neither hop-by-hop nor ignored. -/
theorem stored_headers_exclude_filtered_witness :
    ("Content-Type", "text/html") ∈
      (store_and_commit ⟨["X-Debug"]⟩ "k" ⟨0, 0, 0, 0, 200⟩
        [("Content-Type", "text/html"), ("Connection", "close")]).resp_hdrs ∧
    lowerStr ("Content-Type", "text/html").1 ∉ hop_by_hop_headers ∧
    lowerStr ("Content-Type", "text/html").1 ∉ ["X-Debug"].map lowerStr :=
  ⟨by decide,
    stored_headers_exclude_filtered ⟨["X-Debug"]⟩ "k" ⟨0, 0, 0, 0, 200⟩
      [("Content-Type", "text/html"), ("Connection", "close")]
      ("Content-Type", "text/html") (by decide)⟩

end ModCache
